import Mathlib

/-!
Shallow embedding of the employee credential-verification engine and the
transaction-authorization state machine of the secure payments portal
(src/server/models/Employee.js and src/server/routes/employees.js).

Conventions: timestamps are milliseconds since the Unix epoch (`Nat`);
monetary amounts are rationals (the exact values of the IEEE-754 doubles the
JavaScript runtime stores); MongoDB collections are association lists; the
argon2 hash-verification primitive is a function parameter.
-/

namespace Portal

/-- Employee roles (the `role` enum of the Employee schema, Employee.js:39-43). -/
inductive Role
  | EMPLOYEE
  | ADMIN
  | SUPERVISOR
deriving DecidableEq, Repr

/-- An employee document (Employee.js schema), restricted to the fields the
login, refresh and transaction routes read or write.  `mongoId` stands for the
MongoDB `_id`, as the string the routes obtain via `_id.toString()`. -/
structure Employee where
  mongoId : String
  username : String
  employeeId : String
  passwordHash : String
  salt : String
  role : Role
  isActive : Bool
  failedLoginAttempts : Nat
  lockedUntil : Option Nat
  lastLoginAt : Option Nat
  verificationLimit : ℚ
deriving DecidableEq, Repr

/-- The `isAccountLocked` virtual (Employee.js:115-117):
`!!(this.lockedUntil && this.lockedUntil > Date.now())`. -/
def isAccountLocked (now : Nat) (e : Employee) : Bool :=
  match e.lockedUntil with
  | some t => decide (now < t)
  | none => false

/-- `employeeSchema.methods.incrementFailedAttempts` (Employee.js:161-171):
when the post-increment count reaches the threshold of 5 and the account is not
already locked, set `lockedUntil = now + 15 minutes`; then increment the
counter. -/
def incrementFailedAttempts (now : Nat) (e : Employee) : Employee :=
  let e1 :=
    if 5 ≤ e.failedLoginAttempts + 1 ∧ isAccountLocked now e = false then
      { e with lockedUntil := some (now + 15 * 60 * 1000) }
    else e
  { e1 with failedLoginAttempts := e1.failedLoginAttempts + 1 }

/-- `resetFailedAttempts` (Employee.js:173-177). -/
def resetFailedAttempts (e : Employee) : Employee :=
  { e with failedLoginAttempts := 0, lockedUntil := none }

/-- `updateLastLogin` (Employee.js:179-182). -/
def updateLastLogin (now : Nat) (e : Employee) : Employee :=
  { e with lastLoginAt := some now }

/-- `validatePassword` (Employee.js:152-159): `argon2.verify(passwordHash,
password + salt)`, with the argon2 primitive passed in as
`argon2Verify storedHash candidate`. -/
def validatePassword (argon2Verify : String → String → Bool) (e : Employee)
    (password : String) : Bool :=
  argon2Verify e.passwordHash (password ++ e.salt)

/-- The two distinct exceptions `Employee.findByCredentials` can throw. -/
inductive FindErr
  | invalidCredentials
  | accountLocked
deriving DecidableEq, Repr

/-- `Employee.findByCredentials` (Employee.js:218-234): find one active
employee by `(username, employeeId)`; throw invalid-credentials when absent;
throw account-locked when `isAccountLocked`; otherwise return the employee. -/
def findByCredentials (now : Nat) (store : List Employee)
    (username employeeId : String) : Except FindErr Employee :=
  match store.find? (fun e =>
      e.username == username && e.employeeId == employeeId && e.isActive) with
  | none => Except.error FindErr.invalidCredentials
  | some e =>
    if isAccountLocked now e then Except.error FindErr.accountLocked
    else Except.ok e

/-- Modelled from the spec: a character of the username class `[A-Za-z0-9_-]`.
The pattern object `inputValidation.patterns.username` lives in
src/server/middleware/inputValidation.js, which is not among the provided
sources; the spec fixes the username pattern as `[A-Za-z0-9_-]{3,30}`, in
agreement with the Employee schema (Employee.js:27) and the client-side login
form. -/
def usernameCharOk (c : Char) : Bool :=
  (decide ('a' ≤ c) && decide (c ≤ 'z')) ||
  (decide ('A' ≤ c) && decide (c ≤ 'Z')) ||
  (decide ('0' ≤ c) && decide (c ≤ '9')) ||
  c == '_' || c == '-'

/-- Modelled from the spec: the username pattern `[A-Za-z0-9_-]{3,30}`
anchored on the whole string (see `usernameCharOk`). -/
def usernameOk (s : String) : Bool :=
  decide (3 ≤ s.length) && decide (s.length ≤ 30) && s.toList.all usernameCharOk

/-- A character of the class `[A-Z0-9]` (employees.js:68). -/
def employeeIdCharOk (c : Char) : Bool :=
  (decide ('A' ≤ c) && decide (c ≤ 'Z')) || (decide ('0' ≤ c) && decide (c ≤ '9'))

/-- The inline employee-id pattern `^[A-Z0-9]{6,10}$` (employees.js:68). -/
def employeeIdOk (s : String) : Bool :=
  decide (6 ≤ s.length) && decide (s.length ≤ 10) && s.toList.all employeeIdCharOk

/-- A character of the class `[0-9a-fA-F]` (employees.js:336, 381, 496). -/
def objectIdCharOk (c : Char) : Bool :=
  (decide ('0' ≤ c) && decide (c ≤ '9')) ||
  (decide ('a' ≤ c) && decide (c ≤ 'f')) ||
  (decide ('A' ≤ c) && decide (c ≤ 'F'))

/-- The MongoDB ObjectId pattern `^[0-9a-fA-F]{24}$`. -/
def objectIdOk (s : String) : Bool :=
  s.length == 24 && s.toList.all objectIdCharOk

/-- Default access-token lifetime: `'24h'` (employees.js:25), in seconds. -/
def jwtExpiresInDefault : Nat := 24 * 60 * 60

/-- Default refresh-token lifetime: `'7d'` (employees.js:44), in seconds. -/
def jwtRefreshExpiresInDefault : Nat := 7 * 24 * 60 * 60

/-- The claims of a JWT issued or consumed by the routes. -/
structure TokenClaims where
  employeeId : String
  iat : Nat
  type : String
  issuer : String
  audience : String
  exp : Nat
deriving DecidableEq, Repr

/-- A JWT as data: either a claims payload signed with some secret, or a
string that is not a well-formed JWT at all. -/
inductive Token
  | signed (claims : TokenClaims) (secret : String)
  | malformed (raw : String)
deriving DecidableEq, Repr

/-- `generateEmployeeToken` (employees.js:16-30): signs claims with
`type: 'employee_access'`, a fixed issuer and audience, and the configured
lifetime (`expiresIn`, in seconds). -/
def generateEmployeeToken (now expiresIn : Nat) (secret employeeId : String) :
    Token :=
  Token.signed
    { employeeId := employeeId
      iat := now / 1000
      type := "employee_access"
      issuer := "secure-payments-portal"
      audience := "banking-employees"
      exp := now / 1000 + expiresIn }
    secret

/-- `generateEmployeeRefreshToken` (employees.js:35-49): same claims shape
with `type: 'employee_refresh'`. -/
def generateEmployeeRefreshToken (now expiresIn : Nat) (secret employeeId : String) :
    Token :=
  Token.signed
    { employeeId := employeeId
      iat := now / 1000
      type := "employee_refresh"
      issuer := "secure-payments-portal"
      audience := "banking-employees"
      exp := now / 1000 + expiresIn }
    secret

/-- `jwt.verify(token, secret)` as called at employees.js:166 (no issuer or
audience options are passed there, so only the signature and the expiry are
checked); throws on a bad signature, an expired token, or a malformed token. -/
def jwtVerify (secret : String) (now : Nat) : Token → Except String TokenClaims
  | Token.malformed _ => Except.error "jwt malformed"
  | Token.signed c s =>
    if s != secret then Except.error "invalid signature"
    else if c.exp ≤ now / 1000 then Except.error "jwt expired"
    else Except.ok c

/-- Outcome of the login route, as status code and body error message or the
success payload. -/
inductive LoginRes
  | ok (employee : Employee) (token refreshToken : Token)
  | err (status : Nat) (message : String)
deriving DecidableEq, Repr

/-- A login call's externally observable effect: the HTTP result, the
Credential Store after the call, and how many Credential Store accesses the
call performed. -/
structure LoginOutcome where
  res : LoginRes
  store : List Employee
  storeReads : Nat
deriving DecidableEq, Repr

/-- Mongoose `document.save()` on an employee: replace the record with the
same `_id`. -/
def saveEmployee (store : List Employee) (e : Employee) : List Employee :=
  store.map (fun x => if x.mongoId == e.mongoId then e else x)

/-- POST /api/employees/login (employees.js:56-153).  Input-shape checks run
before any store access; `findByCredentials` throws land in the catch block,
which answers 401 "Invalid credentials" for every thrown error (including the
account-locked throw); a failed password verification increments the failure
counter and also answers 401 "Invalid credentials". -/
def login (secret : String) (now : Nat) (argon2Verify : String → String → Bool)
    (store : List Employee) (username employeeId password : String) :
    LoginOutcome :=
  if usernameOk username = false then
    { res := LoginRes.err 400 "Invalid username format", store := store, storeReads := 0 }
  else if employeeIdOk employeeId = false then
    { res := LoginRes.err 400 "Invalid employee ID format", store := store, storeReads := 0 }
  else if password = "" then
    { res := LoginRes.err 400 "Password is required", store := store, storeReads := 0 }
  else
    match findByCredentials now store username employeeId with
    | Except.error _ =>
      { res := LoginRes.err 401 "Invalid credentials", store := store, storeReads := 1 }
    | Except.ok employee =>
      if validatePassword argon2Verify employee password = false then
        { res := LoginRes.err 401 "Invalid credentials"
          store := saveEmployee store (incrementFailedAttempts now employee)
          storeReads := 1 }
      else
        let e1 := updateLastLogin now (resetFailedAttempts employee)
        { res := LoginRes.ok e1
            (generateEmployeeToken now jwtExpiresInDefault secret e1.mongoId)
            (generateEmployeeRefreshToken now jwtRefreshExpiresInDefault secret e1.mongoId)
          store := saveEmployee store e1
          storeReads := 1 }

/-- `Employee.findById` as used at employees.js:176 (no isActive filter; the
route checks `isActive` separately). -/
def findById (store : List Employee) (id : String) : Option Employee :=
  store.find? (fun e => e.mongoId == id)

/-- Outcome of the refresh route. -/
inductive RefreshRes
  | ok (token refreshToken : Token)
  | err (status : Nat) (message : String)
deriving DecidableEq, Repr

/-- POST /api/employees/refresh (employees.js:160-211): verify the token
(signature and expiry; throws land in the catch answering 401 "Invalid refresh
token"), then require `type === 'employee_refresh'` (else 401 "Invalid token
type"), then require an existing active employee (else 401 "Employee not found
or inactive"), then rotate both tokens. -/
def refresh (secret : String) (now : Nat) (store : List Employee)
    (refreshToken : Token) : RefreshRes :=
  match jwtVerify secret now refreshToken with
  | Except.error _ => RefreshRes.err 401 "Invalid refresh token"
  | Except.ok decoded =>
    if decoded.type != "employee_refresh" then
      RefreshRes.err 401 "Invalid token type"
    else
      match findById store decoded.employeeId with
      | none => RefreshRes.err 401 "Employee not found or inactive"
      | some employee =>
        if employee.isActive = false then
          RefreshRes.err 401 "Employee not found or inactive"
        else
          RefreshRes.ok
            (generateEmployeeToken now jwtExpiresInDefault secret employee.mongoId)
            (generateEmployeeRefreshToken now jwtRefreshExpiresInDefault secret employee.mongoId)

/-- Modelled from the spec: the authorization middleware `employeeAuth`
(src/server/middleware/auth.js is not among the provided sources).  Per spec
section 4.4 and the token-type invariant of section 3, it validates the access
token and requires the access type discriminator, rejecting any other type. -/
def validateAccess (secret : String) (now : Nat) (t : Token) :
    Except String TokenClaims :=
  match jwtVerify secret now t with
  | Except.error e => Except.error e
  | Except.ok c =>
    if c.type != "employee_access" then Except.error "Invalid token type"
    else Except.ok c

/-- Transaction statuses (employees.js:277). -/
inductive TxStatus
  | PENDING
  | VERIFIED
  | PROCESSING
  | COMPLETED
  | REJECTED
  | CANCELLED
deriving DecidableEq, Repr

/-- A transaction document, restricted to the fields the verify and
submit-to-swift routes read or write. -/
structure Transaction where
  amount : ℚ
  currency : String
  swiftCode : String
  status : TxStatus
  verifiedAt : Option Nat
  rejectionReason : Option String
deriving DecidableEq, Repr

/-- Modelled from the spec: `Transaction.markAsVerified`
(src/server/models/Transaction.js is not among the provided sources).  Per
spec section 4.5, on approve the transaction transitions to `VERIFIED` and
`verifiedAt` is stamped. -/
def markAsVerified (now : Nat) (t : Transaction) : Transaction :=
  { t with status := TxStatus.VERIFIED, verifiedAt := some now }

/-- Modelled from the spec: `Transaction.markAsRejected` (Transaction.js is
not among the provided sources).  Per spec section 4.5, on reject the
transaction transitions to `REJECTED` and `rejectionReason` is stamped. -/
def markAsRejected (reason : String) (t : Transaction) : Transaction :=
  { t with status := TxStatus.REJECTED, rejectionReason := some reason }

/-- Modelled from the spec: `Transaction.markAsProcessing` (Transaction.js is
not among the provided sources).  Per spec section 4.5, batch submission
transitions `VERIFIED → PROCESSING`. -/
def markAsProcessing (t : Transaction) : Transaction :=
  { t with status := TxStatus.PROCESSING }

/-- The transaction collection: ids mapped to documents. -/
abbrev TxStore : Type := List (String × Transaction)

/-- `Transaction.findById` over the collection. -/
def findTx (store : TxStore) (id : String) : Option Transaction :=
  (List.find? (fun p => p.1 == id) store).map Prod.snd

/-- Mongoose `document.save()` on a transaction: replace the record with the
given id. -/
def saveTx (store : TxStore) (id : String) (t : Transaction) : TxStore :=
  List.map (fun p => if p.1 == id then (p.1, t) else p) store

/-- JavaScript truthiness of the optional `notes` body field (`undefined` and
the empty string are falsy). -/
def notesTruthy (notes : Option String) : Bool :=
  match notes with
  | none => false
  | some s => s != ""

/-- The notes validation at employees.js:397: an error exactly when `notes` is
truthy and longer than 500 characters (the typeof check vanishes under
typing). -/
def notesOk (notes : Option String) : Bool :=
  !(notesTruthy notes && decide (500 < (notes.getD "").length))

/-- `notes || 'Rejected by employee'` (employees.js:442). -/
def notesValue (notes : Option String) : String :=
  if notesTruthy notes then notes.getD "" else "Rejected by employee"

/-- The verification-limit guard at employees.js:421:
`verified && transaction.amount > req.employee.verificationLimit &&
role !== 'ADMIN' && role !== 'SUPERVISOR'`.  Amounts and limits are the
rational values of the stored doubles. -/
def limitExceededCheck (verified : Bool) (amount limit : ℚ) (role : Role) : Bool :=
  verified && decide (limit < amount) &&
    !(role == Role.ADMIN) && !(role == Role.SUPERVISOR)

/-- Outcome of the verify route: the success message with the updated
transaction as echoed in the response, or status code and error message.  (The
source interpolates the employee's limit into the 403 message; the model keeps
the fixed prefix.) -/
inductive VerifyRes
  | ok (message : String) (tx : Transaction)
  | err (status : Nat) (message : String)
deriving DecidableEq, Repr

/-- POST /api/employees/transactions/:id/verify (employees.js:374-467):
validate the id shape and the notes, resolve the transaction, require
`PENDING`, apply the limit guard for approvals, then mark verified or
rejected.  Returns the response and the transaction collection after the
call. -/
def verifyTx (now : Nat) (employee : Employee) (store : TxStore) (id : String)
    (verified : Bool) (notes : Option String) : VerifyRes × TxStore :=
  if objectIdOk id = false then
    (VerifyRes.err 400 "Invalid transaction ID format", store)
  else if notesOk notes = false then
    (VerifyRes.err 400 "Notes must be a string with max 500 characters", store)
  else
    match findTx store id with
    | none => (VerifyRes.err 404 "Transaction not found", store)
    | some transaction =>
      if transaction.status != TxStatus.PENDING then
        (VerifyRes.err 400 "Transaction is not in PENDING status", store)
      else if limitExceededCheck verified transaction.amount
          employee.verificationLimit employee.role then
        (VerifyRes.err 403 "Transaction amount exceeds your verification limit. Please contact a supervisor.", store)
      else if verified then
        let t1 := markAsVerified now transaction
        (VerifyRes.ok "Transaction verified successfully" t1, saveTx store id t1)
      else
        let t1 := markAsRejected (notesValue notes) transaction
        (VerifyRes.ok "Transaction rejected" t1, saveTx store id t1)

/-- Whether an id resolves to a transaction currently in `VERIFIED` status. -/
def resolvesVerified (store : TxStore) (id : String) : Bool :=
  match findTx store id with
  | some t => t.status == TxStatus.VERIFIED
  | none => false

/-- Outcome of the submit-to-swift route. -/
inductive BatchRes
  | ok (count : Nat)
  | err (status : Nat) (message : String)
deriving DecidableEq, Repr

/-- The route's store query
`Transaction.find({_id: {$in: transactionIds}, status: 'VERIFIED'})`
(employees.js:505-508): the documents whose id is among the requested ids and
whose status is `VERIFIED`. -/
def verifiedAmong (store : TxStore) (transactionIds : List String) : TxStore :=
  List.filter
    (fun p => transactionIds.contains p.1 && p.2.status == TxStatus.VERIFIED) store

/-- POST /api/employees/transactions/submit-to-swift (employees.js:474-555):
require 1 to 50 well-formed ids, query the transactions among them whose
status is `VERIFIED` (Mongo `$in`), answer 404 when none match, 400 when the
match count differs from the id count, and otherwise mark every matched
transaction as `PROCESSING`.  (The source interpolates the offending id into
the format-error message; the model keeps the fixed prefix.) -/
def submitBatch (store : TxStore) (transactionIds : List String) :
    BatchRes × TxStore :=
  if transactionIds.length = 0 then
    (BatchRes.err 400 "Transaction IDs array is required", store)
  else if 50 < transactionIds.length then
    (BatchRes.err 400 "Maximum 50 transactions can be submitted at once", store)
  else if transactionIds.all objectIdOk = false then
    (BatchRes.err 400 "Invalid transaction ID format", store)
  else
    if (verifiedAmong store transactionIds).length = 0 then
      (BatchRes.err 404 "No verified transactions found", store)
    else if (verifiedAmong store transactionIds).length ≠ transactionIds.length then
      (BatchRes.err 400 "Some transactions are not in VERIFIED status or do not exist", store)
    else
      (BatchRes.ok (verifiedAmong store transactionIds).length,
        List.map (fun p =>
          if transactionIds.contains p.1 && p.2.status == TxStatus.VERIFIED then
            (p.1, markAsProcessing p.2)
          else p) store)

/-- Demo employee fixture (after scripts/create-demo-employee.js), here with
four failed attempts already recorded and the default verification limit. -/
def jsmith : Employee :=
  { mongoId := "64b000000000000000000001"
    username := "jsmith"
    employeeId := "EMP001"
    passwordHash := "argon2idhash"
    salt := "somesalt"
    role := Role.EMPLOYEE
    isActive := true
    failedLoginAttempts := 4
    lockedUntil := none
    lastLoginAt := none
    verificationLimit := 100000 }

/-- The same employee while locked out (lockedUntil in the future of time 0). -/
def jsmithLocked : Employee :=
  { jsmith with failedLoginAttempts := 5, lockedUntil := some (15 * 60 * 1000) }

/-- A pending transaction fixture. -/
def txPending (amount : ℚ) : Transaction :=
  { amount := amount
    currency := "USD"
    swiftCode := "ABCDUS33XXX"
    status := TxStatus.PENDING
    verifiedAt := none
    rejectionReason := none }

/-- A verified transaction fixture. -/
def txVerified (amount : ℚ) : Transaction :=
  { txPending amount with status := TxStatus.VERIFIED }

/-- A well-formed ObjectId fixture. -/
def idA : String := "aaaaaaaaaaaaaaaaaaaaaaaa"

/-- A second well-formed ObjectId fixture. -/
def idB : String := "bbbbbbbbbbbbbbbbbbbbbbbb"

/-- Round-to-nearest IEEE-754 binary64 rounding for magnitudes in the binade
from 2 to the 16th to 2 to the 17th (65536 to 131072, which contains the
verification limits around 100000): doubles there are spaced 2 to the minus 36
apart.  This models how a decimal amount such as 99999.99 is stored in a
JavaScript `Number` before the route's comparison at employees.js:421 runs
(the values compared there are already doubles). -/
def f64RoundBinade16 (q : ℚ) : ℚ :=
  ((round (q * 2 ^ 36) : ℤ) : ℚ) / 2 ^ 36

/-! ## Theorems -/

/-- An employee returned by `findByCredentials` is never locked (the locked
case throws instead). -/
theorem findByCredentials_ok_not_locked (now : Nat) (store : List Employee)
    (username employeeId : String) (e : Employee)
    (h : findByCredentials now store username employeeId = Except.ok e) :
    isAccountLocked now e = false := by
  unfold findByCredentials at h
  cases hfind : List.find? (fun e =>
      e.username == username && e.employeeId == employeeId && e.isActive) store with
  | none => rw [hfind] at h; cases h
  | some e0 =>
    rw [hfind] at h
    cases hb : isAccountLocked now e0 with
    | true => simp [hb] at h
    | false =>
      simp [hb] at h
      subst h
      exact hb

/-- C1: for a well-formed login attempt that finds the employee but fails the
password verification, the route increments `failedLoginAttempts` by exactly
one; when the post-increment count reaches the threshold of 5 (the account not
being locked, which `findByCredentials` already guarantees for the login flow)
`lockedUntil` is set to now + 15 minutes; the saved record is persisted and
the response is the 401 invalid-credentials error. -/
theorem c1_failed_login_increments_and_locks
    (secret : String) (now : Nat) (argon2Verify : String → String → Bool)
    (store : List Employee) (username employeeId password : String) (e : Employee)
    (hu : usernameOk username = true) (hi : employeeIdOk employeeId = true)
    (hp : password ≠ "")
    (hf : findByCredentials now store username employeeId = Except.ok e)
    (hv : validatePassword argon2Verify e password = false) :
    login secret now argon2Verify store username employeeId password =
      { res := LoginRes.err 401 "Invalid credentials"
        store := saveEmployee store (incrementFailedAttempts now e)
        storeReads := 1 } ∧
    (incrementFailedAttempts now e).failedLoginAttempts
      = e.failedLoginAttempts + 1 ∧
    (e.failedLoginAttempts + 1 = 5 →
      (incrementFailedAttempts now e).lockedUntil
        = some (now + 15 * 60 * 1000)) := by
  have hlock := findByCredentials_ok_not_locked now store username employeeId e hf
  refine ⟨?_, ?_, ?_⟩
  · simp [login, hu, hi, hp, hf, hv]
  · simp only [incrementFailedAttempts]
    split <;> rfl
  · intro h5
    simp [incrementFailedAttempts, h5, hlock]

/-- C1 at a concrete input: `jsmith` with four prior failures and a wrong
password gets locked for 15 minutes. -/
theorem c1_witness :
    login "secret" 0 (fun _ _ => false) [jsmith] "jsmith" "EMP001" "WrongPw" =
      { res := LoginRes.err 401 "Invalid credentials"
        store := saveEmployee [jsmith] (incrementFailedAttempts 0 jsmith)
        storeReads := 1 } ∧
    (incrementFailedAttempts 0 jsmith).failedLoginAttempts
      = jsmith.failedLoginAttempts + 1 ∧
    (jsmith.failedLoginAttempts + 1 = 5 →
      (incrementFailedAttempts 0 jsmith).lockedUntil
        = some (0 + 15 * 60 * 1000)) :=
  c1_failed_login_increments_and_locks "secret" 0 (fun _ _ => false) [jsmith]
    "jsmith" "EMP001" "WrongPw" jsmith (by decide) (by decide) (by decide)
    (by rfl) (by rfl)

/-- C2 counterexample: a login attempt against a locked account answers the
same generic 401 "Invalid credentials" response as a login against an empty
store (unknown user), even when the supplied password is correct — the route's
catch block erases the distinct account-locked error that `findByCredentials`
raises internally, so the login operation does not fail with an AccountLocked
error distinct from InvalidCredentials. -/
theorem c2_counterexample :
    (login "secret" 0 (fun _ _ => true) [jsmithLocked] "jsmith" "EMP001"
        "Demo123").res = LoginRes.err 401 "Invalid credentials" ∧
    (login "secret" 0 (fun _ _ => true) [] "jsmith" "EMP001"
        "Demo123").res = LoginRes.err 401 "Invalid credentials" ∧
    findByCredentials 0 [jsmithLocked] "jsmith" "EMP001"
      = Except.error FindErr.accountLocked := by
  refine ⟨by rfl, by rfl, by rfl⟩

/-- C2 amended: when the lookup finds the employee locked (the
account-locked throw of `findByCredentials`), the login route performs no
password verification (its outcome is independent of the hash verifier), does
not increment `failedLoginAttempts` (the store is unchanged), and answers the
generic 401 "Invalid credentials" response produced by the catch block. -/
theorem c2_locked_account_no_verify_no_increment
    (secret : String) (now : Nat) (argon2Verify : String → String → Bool)
    (store : List Employee) (username employeeId password : String)
    (hu : usernameOk username = true) (hi : employeeIdOk employeeId = true)
    (hp : password ≠ "")
    (hf : findByCredentials now store username employeeId
      = Except.error FindErr.accountLocked) :
    login secret now argon2Verify store username employeeId password =
      { res := LoginRes.err 401 "Invalid credentials"
        store := store
        storeReads := 1 } ∧
    (∀ otherVerify : String → String → Bool,
      login secret now argon2Verify store username employeeId password
        = login secret now otherVerify store username employeeId password) := by
  constructor
  · simp [login, hu, hi, hp, hf]
  · intro otherVerify
    simp [login, hu, hi, hp, hf]

/-- C2 amended at a concrete input: the locked `jsmith` fixture. -/
theorem c2_witness :
    login "secret" 0 (fun _ _ => true) [jsmithLocked] "jsmith" "EMP001"
        "Demo123" =
      { res := LoginRes.err 401 "Invalid credentials"
        store := [jsmithLocked]
        storeReads := 1 } ∧
    (∀ otherVerify : String → String → Bool,
      login "secret" 0 (fun _ _ => true) [jsmithLocked] "jsmith" "EMP001"
          "Demo123"
        = login "secret" 0 otherVerify [jsmithLocked] "jsmith" "EMP001"
          "Demo123") :=
  c2_locked_account_no_verify_no_increment "secret" 0 (fun _ _ => true)
    [jsmithLocked] "jsmith" "EMP001" "Demo123" (by decide) (by decide)
    (by decide) (by rfl)

/-- C9: a malformed login request (bad username shape, bad employee-id shape,
or empty password) fails fast with a 400 invalid-input response, performs zero
Credential Store accesses, and leaves the store untouched — in particular no
`failedLoginAttempts` counter is read or mutated. -/
theorem c9_invalid_input_no_store_access
    (secret : String) (now : Nat) (argon2Verify : String → String → Bool)
    (store : List Employee) (username employeeId password : String)
    (h : usernameOk username = false ∨ employeeIdOk employeeId = false ∨
      password = "") :
    ∃ message, login secret now argon2Verify store username employeeId password =
      { res := LoginRes.err 400 message, store := store, storeReads := 0 } := by
  rcases h with h | h | h
  · exact ⟨"Invalid username format", by simp [login, h]⟩
  · by_cases hu : usernameOk username = false
    · exact ⟨"Invalid username format", by simp [login, hu]⟩
    · exact ⟨"Invalid employee ID format", by simp [login, hu, h]⟩
  · by_cases hu : usernameOk username = false
    · exact ⟨"Invalid username format", by simp [login, hu]⟩
    · by_cases hi : employeeIdOk employeeId = false
      · exact ⟨"Invalid employee ID format", by simp [login, hu, hi]⟩
      · exact ⟨"Password is required", by simp [login, hu, hi, h]⟩

/-- C9 at a concrete input: a two-character username is rejected without any
store access. -/
theorem c9_witness :
    ∃ message, login "secret" 0 (fun _ _ => false) [jsmith] "ab" "EMP001"
        "Demo123" =
      { res := LoginRes.err 400 message
        store := [jsmith]
        storeReads := 0 } :=
  c9_invalid_input_no_store_access "secret" 0 (fun _ _ => false) [jsmith]
    "ab" "EMP001" "Demo123" (Or.inl (by decide))

/-- C6 counterexample: three failing refresh sub-checks produce three
pairwise distinct error messages — a wrong token type yields "Invalid token
type", a malformed token yields "Invalid refresh token", and an unknown
employee yields "Employee not found or inactive" — so the externally returned
error is not the single identical InvalidRefreshToken error and the caller can
tell which sub-check failed. -/
theorem c6_counterexample :
    refresh "secret" 0 []
        (generateEmployeeToken 0 jwtExpiresInDefault "secret" "someid")
      = RefreshRes.err 401 "Invalid token type" ∧
    refresh "secret" 0 [] (Token.malformed "not a jwt")
      = RefreshRes.err 401 "Invalid refresh token" ∧
    refresh "secret" 0 []
        (generateEmployeeRefreshToken 0 jwtRefreshExpiresInDefault "secret" "someid")
      = RefreshRes.err 401 "Employee not found or inactive" ∧
    ("Invalid token type" : String) ≠ "Invalid refresh token" ∧
    ("Invalid token type" : String) ≠ "Employee not found or inactive" ∧
    ("Invalid refresh token" : String) ≠ "Employee not found or inactive" := by
  refine ⟨by rfl, by rfl, by rfl, by decide, by decide, by decide⟩

/-- C6 amended: every failing refresh sub-check answers HTTP status 401, but
the message identifies the sub-check: signature/expiry/malformation failures
answer "Invalid refresh token", a wrong type claim answers "Invalid token
type", and a missing or inactive employee answers "Employee not found or
inactive". -/
theorem c6_refresh_error_per_subcheck (secret : String) (now : Nat)
    (store : List Employee) (t : Token) :
    (∀ e, jwtVerify secret now t = Except.error e →
      refresh secret now store t = RefreshRes.err 401 "Invalid refresh token") ∧
    (∀ c, jwtVerify secret now t = Except.ok c →
      c.type ≠ "employee_refresh" →
      refresh secret now store t = RefreshRes.err 401 "Invalid token type") ∧
    (∀ c, jwtVerify secret now t = Except.ok c →
      c.type = "employee_refresh" →
      (findById store c.employeeId = none ∨
        ∃ e, findById store c.employeeId = some e ∧ e.isActive = false) →
      refresh secret now store t
        = RefreshRes.err 401 "Employee not found or inactive") ∧
    (∀ s m, refresh secret now store t = RefreshRes.err s m → s = 401) := by
  refine ⟨?_, ?_, ?_, ?_⟩
  · intro e he
    simp [refresh, he]
  · intro c hc hty
    simp [refresh, hc, hty]
  · intro c hc hty hemp
    rcases hemp with hnone | ⟨e, he, hact⟩
    · simp [refresh, hc, hty, hnone]
    · simp [refresh, hc, hty, he, hact]
  · intro s m h
    unfold refresh at h
    cases hj : jwtVerify secret now t with
    | error e =>
      rw [hj] at h
      dsimp only at h
      injection h with h1 h2
      exact h1.symm
    | ok c =>
      rw [hj] at h
      dsimp only at h
      by_cases hty : (c.type != "employee_refresh") = true
      · rw [if_pos hty] at h
        injection h with h1 h2
        exact h1.symm
      · rw [if_neg hty] at h
        cases hf : findById store c.employeeId with
        | none =>
          rw [hf] at h
          dsimp only at h
          injection h with h1 h2
          exact h1.symm
        | some employee =>
          rw [hf] at h
          dsimp only at h
          by_cases hact : employee.isActive = false
          · rw [if_pos hact] at h
            injection h with h1 h2
            exact h1.symm
          · rw [if_neg hact] at h
            cases h

/-- C6 amended at a concrete input: a malformed token fails the
signature-layer sub-check with "Invalid refresh token". -/
theorem c6_witness :
    refresh "secret" 0 [] (Token.malformed "not a jwt")
      = RefreshRes.err 401 "Invalid refresh token" :=
  (c6_refresh_error_per_subcheck "secret" 0 [] (Token.malformed "not a jwt")).1
    "jwt malformed" (by rfl)

/-- C7: the refresh route rejects, with the 401 "Invalid token type" error,
every validly signed unexpired token whose type claim differs from
`employee_refresh`; in particular every access token produced by
`generateEmployeeToken` (type `employee_access`) is so rejected; and,
conversely, the spec-modelled access validation `validateAccess` rejects every
token whose type claim differs from `employee_access`, in particular every
refresh token produced by `generateEmployeeRefreshToken`. -/
theorem c7_token_type_discrimination :
    (∀ (secret : String) (now : Nat) (store : List Employee) (t : Token)
      (c : TokenClaims), jwtVerify secret now t = Except.ok c →
      c.type ≠ "employee_refresh" →
      refresh secret now store t = RefreshRes.err 401 "Invalid token type") ∧
    (∀ (secret id : String) (iatNow expiresIn now : Nat)
      (store : List Employee), now / 1000 < iatNow / 1000 + expiresIn →
      refresh secret now store (generateEmployeeToken iatNow expiresIn secret id)
        = RefreshRes.err 401 "Invalid token type") ∧
    (∀ (secret : String) (now : Nat) (t : Token) (c : TokenClaims),
      jwtVerify secret now t = Except.ok c → c.type ≠ "employee_access" →
      validateAccess secret now t = Except.error "Invalid token type") ∧
    (∀ (secret id : String) (iatNow expiresIn now : Nat),
      now / 1000 < iatNow / 1000 + expiresIn →
      validateAccess secret now
          (generateEmployeeRefreshToken iatNow expiresIn secret id)
        = Except.error "Invalid token type") := by
  refine ⟨?_, ?_, ?_, ?_⟩
  · intro secret now store t c hc hty
    simp [refresh, hc, hty]
  · intro secret id iatNow expiresIn now store h
    have h2 : ¬ (iatNow / 1000 + expiresIn ≤ now / 1000) := by omega
    simp [refresh, jwtVerify, generateEmployeeToken, h2]
  · intro secret now t c hc hty
    simp [validateAccess, hc, hty]
  · intro secret id iatNow expiresIn now h
    have h2 : ¬ (iatNow / 1000 + expiresIn ≤ now / 1000) := by
      omega
    simp [validateAccess, jwtVerify, generateEmployeeRefreshToken, h2]

/-- C7 at a concrete input: a freshly issued access token is rejected by the
refresh route, and a freshly issued refresh token is rejected by the access
validation. -/
theorem c7_witness :
    refresh "secret" 0 []
        (generateEmployeeToken 0 jwtExpiresInDefault "secret" "someid")
      = RefreshRes.err 401 "Invalid token type" ∧
    validateAccess "secret" 0
        (generateEmployeeRefreshToken 0 jwtRefreshExpiresInDefault "secret" "someid")
      = Except.error "Invalid token type" :=
  ⟨c7_token_type_discrimination.2.1 "secret" "someid" 0 jwtExpiresInDefault 0 []
      (by decide),
    c7_token_type_discrimination.2.2.2 "secret" "someid" 0
      jwtRefreshExpiresInDefault 0 (by decide)⟩

/-- `findTx` over a key-preserving per-record map rewrites to a map over the
underlying `find?`. -/
theorem findTx_map_keyPreserving (g : String × Transaction → String × Transaction)
    (hg : ∀ p, (g p).1 = p.1) (store : TxStore) (id : String) :
    findTx (store.map g) id
      = (List.find? (fun p => p.1 == id) store).map (fun p => (g p).2) := by
  unfold findTx
  rw [List.find?_map]
  have hfun : ((fun p : String × Transaction => p.1 == id) ∘ g)
      = (fun p : String × Transaction => p.1 == id) := by
    funext p
    simp [Function.comp, hg p]
  rw [hfun]
  cases List.find? (fun p : String × Transaction => p.1 == id) store <;> simp

/-- Saving a transaction under an id that resolves makes that id resolve to
the saved document. -/
theorem findTx_saveTx_self (store : TxStore) (id : String) (u t : Transaction)
    (h : findTx store id = some t) :
    findTx (saveTx store id u) id = some u := by
  unfold saveTx
  rw [findTx_map_keyPreserving (fun p => if p.1 == id then (p.1, u) else p)
      (by intro q; dsimp only; split <;> rfl) store id]
  unfold findTx at h
  cases hf : List.find? (fun p : String × Transaction => p.1 == id) store with
  | none => rw [hf] at h; cases h
  | some q =>
    have hq := List.find?_some hf
    simp only [beq_iff_eq] at hq
    simp [hq]

/-- The verify route on a transaction that is not in `PENDING` status answers
the 400 invalid-state error and leaves the collection unchanged. -/
theorem verifyTx_not_pending (now : Nat) (employee : Employee) (store : TxStore)
    (id : String) (verified : Bool) (notes : Option String) (t : Transaction)
    (hid : objectIdOk id = true) (hnotes : notesOk notes = true)
    (hfind : findTx store id = some t) (hst : t.status ≠ TxStatus.PENDING) :
    verifyTx now employee store id verified notes
      = (VerifyRes.err 400 "Transaction is not in PENDING status", store) := by
  simp [verifyTx, hid, hnotes, hfind, hst]

/-- A successful verify call implies: the id was well-formed, the updated
transaction is no longer `PENDING`, and the id now resolves to the updated
transaction. -/
theorem verifyTx_ok_inv (now : Nat) (employee : Employee) (store : TxStore)
    (id : String) (verified : Bool) (notes : Option String) (msg : String)
    (t1 : Transaction) (store1 : TxStore)
    (h : verifyTx now employee store id verified notes
      = (VerifyRes.ok msg t1, store1)) :
    objectIdOk id = true ∧ t1.status ≠ TxStatus.PENDING ∧
    findTx store1 id = some t1 := by
  unfold verifyTx at h
  by_cases h1 : objectIdOk id = false
  · rw [if_pos h1] at h
    simp at h
  · rw [if_neg h1] at h
    have h1' : objectIdOk id = true := by
      cases hx : objectIdOk id
      · exact absurd hx h1
      · rfl
    by_cases h2 : notesOk notes = false
    · rw [if_pos h2] at h
      simp at h
    · rw [if_neg h2] at h
      cases hfind : findTx store id with
      | none =>
        rw [hfind] at h
        simp at h
      | some transaction =>
        rw [hfind] at h
        dsimp only at h
        by_cases h3 : (transaction.status != TxStatus.PENDING) = true
        · rw [if_pos h3] at h
          simp at h
        · rw [if_neg h3] at h
          by_cases h4 : limitExceededCheck verified transaction.amount
              employee.verificationLimit employee.role = true
          · rw [if_pos h4] at h
            simp at h
          · rw [if_neg h4] at h
            by_cases h5 : verified = true
            · rw [if_pos h5] at h
              simp only [Prod.mk.injEq, VerifyRes.ok.injEq] at h
              obtain ⟨⟨hm, ht⟩, hs⟩ := h
              refine ⟨h1', ?_, ?_⟩
              · rw [← ht]
                simp [markAsVerified]
              · rw [← hs, ← ht]
                exact findTx_saveTx_self store id _ transaction hfind
            · rw [if_neg h5] at h
              simp only [Prod.mk.injEq, VerifyRes.ok.injEq] at h
              obtain ⟨⟨hm, ht⟩, hs⟩ := h
              refine ⟨h1', ?_, ?_⟩
              · rw [← ht]
                simp [markAsRejected]
              · rw [← hs, ← ht]
                exact findTx_saveTx_self store id _ transaction hfind

/-- C3: approving a transaction whose amount strictly exceeds the acting
employee's verification limit, when the role is neither ADMIN nor SUPERVISOR,
answers the 403 limit-exceeded error and leaves the collection unchanged; at
the concrete inputs of the spec, the EMPLOYEE `jsmith` with limit 100000
approving amount 150000 receives the 403, while the same employee approving
99999.99 succeeds and the transaction transitions to `VERIFIED`. -/
theorem c3_limit_enforcement :
    (∀ (now : Nat) (employee : Employee) (store : TxStore) (id : String)
      (notes : Option String) (t : Transaction),
      objectIdOk id = true → notesOk notes = true →
      findTx store id = some t → t.status = TxStatus.PENDING →
      employee.verificationLimit < t.amount →
      employee.role ≠ Role.ADMIN → employee.role ≠ Role.SUPERVISOR →
      verifyTx now employee store id true notes
        = (VerifyRes.err 403 "Transaction amount exceeds your verification limit. Please contact a supervisor.",
            store)) ∧
    verifyTx 0 jsmith [(idA, txPending 150000)] idA true none
      = (VerifyRes.err 403 "Transaction amount exceeds your verification limit. Please contact a supervisor.",
          [(idA, txPending 150000)]) ∧
    verifyTx 0 jsmith [(idA, txPending (mkRat 9999999 100))] idA true none
      = (VerifyRes.ok "Transaction verified successfully"
            (markAsVerified 0 (txPending (mkRat 9999999 100))),
          [(idA, markAsVerified 0 (txPending (mkRat 9999999 100)))]) := by
  refine ⟨?_, by decide, by decide⟩
  intro now employee store id notes t hid hnotes hfind hst hamt hra hrs
  have hcheck : limitExceededCheck true t.amount employee.verificationLimit
      employee.role = true := by
    simp [limitExceededCheck, hamt, beq_iff_eq, hra, hrs]
  simp [verifyTx, hid, hnotes, hfind, hst, hcheck]

/-- C3 general part at a concrete input: limit 100000, amount 150000, role
EMPLOYEE. -/
theorem c3_witness :
    verifyTx 7 jsmith [(idA, txPending 150000)] idA true (some "check")
      = (VerifyRes.err 403 "Transaction amount exceeds your verification limit. Please contact a supervisor.",
          [(idA, txPending 150000)]) :=
  c3_limit_enforcement.1 7 jsmith [(idA, txPending 150000)] idA (some "check")
    (txPending 150000) (by decide) (by decide) (by rfl) (by rfl) (by decide)
    (by decide) (by decide)

/-- C10: for a pending transaction and a well-formed request, a verify call
with approve = false always succeeds and transitions the transaction to
`REJECTED`, stamping `rejectionReason` with the notes when truthy and with the
default text otherwise — no matter the transaction's amount, the employee's
verification limit, or the employee's role (the limit guard is conjoined with
the approve flag). -/
theorem c10_reject_ignores_limit (now : Nat) (employee : Employee)
    (store : TxStore) (id : String) (notes : Option String) (t : Transaction)
    (hid : objectIdOk id = true) (hnotes : notesOk notes = true)
    (hfind : findTx store id = some t) (hst : t.status = TxStatus.PENDING) :
    verifyTx now employee store id false notes
      = (VerifyRes.ok "Transaction rejected" (markAsRejected (notesValue notes) t),
          saveTx store id (markAsRejected (notesValue notes) t)) := by
  have hcheck : limitExceededCheck false t.amount employee.verificationLimit
      employee.role = false := by
    simp [limitExceededCheck]
  simp [verifyTx, hid, hnotes, hfind, hst, hcheck]

/-- C10 at a concrete input: the EMPLOYEE `jsmith` (limit 100000) rejects an
amount of 150000, far above the limit, and the rejection succeeds. -/
theorem c10_witness :
    verifyTx 3 jsmith [(idA, txPending 150000)] idA false none
      = (VerifyRes.ok "Transaction rejected"
            (markAsRejected (notesValue none) (txPending 150000)),
          saveTx [(idA, txPending 150000)] idA
            (markAsRejected (notesValue none) (txPending 150000))) :=
  c10_reject_ignores_limit 3 jsmith [(idA, txPending 150000)] idA none
    (txPending 150000) (by decide) (by decide) (by rfl) (by rfl)

/-- C4 counterexample: when the first verify call fails (here with the 403
limit-exceeded error, which leaves the transaction `PENDING`), a second verify
call on the same transaction can succeed — it rejects the transaction — rather
than return the invalid-state error; so the second call's result is not
`InvalidState` regardless of the first call's outcome. -/
theorem c4_counterexample :
    (verifyTx 0 jsmith
        (verifyTx 0 jsmith [(idA, txPending 150000)] idA true none).2
        idA false none).1
      = VerifyRes.ok "Transaction rejected"
          (markAsRejected "Rejected by employee" (txPending 150000)) ∧
    (verifyTx 0 jsmith
        (verifyTx 0 jsmith [(idA, txPending 150000)] idA true none).2
        idA false none).1
      ≠ VerifyRes.err 400 "Transaction is not in PENDING status" := by
  refine ⟨by decide, by decide⟩

/-- C4 amended: a verify call on a transaction that is not `PENDING` answers
the 400 invalid-state error and mutates nothing; consequently, when a first
verify call succeeds, any second verify call on the resulting collection
answers the invalid-state error and the transition is never double-applied
(when the first call fails it leaves the transaction `PENDING`, and a second
call may then succeed, as the counterexample shows). -/
theorem c4_invalid_state_never_double_applies :
    (∀ (now : Nat) (employee : Employee) (store : TxStore) (id : String)
      (verified : Bool) (notes : Option String) (t : Transaction),
      objectIdOk id = true → notesOk notes = true →
      findTx store id = some t → t.status ≠ TxStatus.PENDING →
      verifyTx now employee store id verified notes
        = (VerifyRes.err 400 "Transaction is not in PENDING status", store)) ∧
    (∀ (now1 now2 : Nat) (e1 e2 : Employee) (store store1 : TxStore)
      (id : String) (v1 v2 : Bool) (n1 n2 : Option String) (msg : String)
      (t1 : Transaction),
      verifyTx now1 e1 store id v1 n1 = (VerifyRes.ok msg t1, store1) →
      notesOk n2 = true →
      verifyTx now2 e2 store1 id v2 n2
        = (VerifyRes.err 400 "Transaction is not in PENDING status", store1)) := by
  constructor
  · intro now employee store id verified notes t hid hnotes hfind hst
    exact verifyTx_not_pending now employee store id verified notes t hid
      hnotes hfind hst
  · intro now1 now2 e1 e2 store store1 id v1 v2 n1 n2 msg t1 h hn2
    obtain ⟨hid, hst, hfind⟩ :=
      verifyTx_ok_inv now1 e1 store id v1 n1 msg t1 store1 h
    exact verifyTx_not_pending now2 e2 store1 id v2 n2 t1 hid hn2 hfind hst

/-- C4 amended at a concrete input: a first approval of a 500-unit pending
transaction succeeds, and the second call answers the invalid-state error. -/
theorem c4_witness :
    verifyTx 1 jsmith
        (verifyTx 0 jsmith [(idA, txPending 500)] idA true none).2
        idA true none
      = (VerifyRes.err 400 "Transaction is not in PENDING status",
          (verifyTx 0 jsmith [(idA, txPending 500)] idA true none).2) :=
  c4_invalid_state_never_double_applies.2 0 1 jsmith jsmith
    [(idA, txPending 500)] (verifyTx 0 jsmith [(idA, txPending 500)] idA true none).2
    idA true true none none "Transaction verified successfully"
    (markAsVerified 0 (txPending 500)) (by decide) (by decide)

/-- A nodup list is no longer than any list containing all its elements. -/
theorem length_le_of_nodup_subset {α : Type} [DecidableEq α] {l1 l2 : List α}
    (h1 : l1.Nodup) (hsub : l1 ⊆ l2) : l1.length ≤ l2.length := by
  calc l1.length = l1.toFinset.card := (List.toFinset_card_of_nodup h1).symm
    _ ≤ l2.toFinset.card := Finset.card_le_card (fun a ha => by
        rw [List.mem_toFinset] at ha ⊢
        exact hsub ha)
    _ ≤ l2.length := List.toFinset_card_le l2

/-- With nodup ids, a record of the collection is what its id resolves to. -/
theorem findTx_of_mem (store : TxStore) (p : String × Transaction)
    (hnd : (store.map Prod.fst).Nodup) (hp : p ∈ store) :
    findTx store p.1 = some p.2 := by
  induction store with
  | nil => cases hp
  | cons q rest ih =>
    rw [List.map_cons, List.nodup_cons] at hnd
    cases hp with
    | head =>
      unfold findTx
      simp
    | tail _ hp2 =>
      have hq : (q.1 == p.1) = false := by
        have hmem : p.1 ∈ rest.map Prod.fst := List.mem_map_of_mem Prod.fst hp2
        rw [beq_eq_false_iff_ne]
        intro hEq
        exact hnd.1 (hEq ▸ hmem)
      unfold findTx
      rw [List.find?_cons_of_neg]
      · exact ih hnd.2 hp2
      · simp [hq]

/-- A resolving id comes from a record of the collection. -/
theorem mem_of_findTx (store : TxStore) (id : String) (t : Transaction)
    (h : findTx store id = some t) :
    ∃ p, p ∈ store ∧ p.1 = id ∧ p.2 = t := by
  unfold findTx at h
  cases hf : List.find? (fun p : String × Transaction => p.1 == id) store with
  | none => rw [hf] at h; cases h
  | some q =>
    rw [hf] at h
    simp only [Option.map_some'] at h
    have hqmem := List.mem_of_find?_eq_some hf
    have hqk := List.find?_some hf
    simp only [beq_iff_eq] at hqk
    exact ⟨q, hqmem, hqk, by injection h⟩

/-- C5 counterexample, two concrete refutations: (a) a batch consisting of one
id that resolves to a `PENDING` transaction fails with the 404 "No verified
transactions found" error, not with the partial-batch 400 error the claim
names (the collection is still unmutated); (b) a batch that repeats one id
resolving to a `VERIFIED` transaction — so every id of the batch resolves to a
`VERIFIED` transaction — nevertheless fails with the partial-batch error
instead of transitioning the transaction. -/
theorem c5_counterexample :
    (submitBatch [(idA, txPending 100), (idB, txVerified 50)] [idA]).1
      = BatchRes.err 404 "No verified transactions found" ∧
    (submitBatch [(idA, txPending 100), (idB, txVerified 50)] [idA]).1
      ≠ BatchRes.err 400 "Some transactions are not in VERIFIED status or do not exist" ∧
    (submitBatch [(idA, txPending 100), (idB, txVerified 50)] [idA]).2
      = [(idA, txPending 100), (idB, txVerified 50)] ∧
    resolvesVerified [(idA, txPending 100), (idB, txVerified 50)] idB = true ∧
    (submitBatch [(idA, txPending 100), (idB, txVerified 50)] [idB, idB]).1
      = BatchRes.err 400 "Some transactions are not in VERIFIED status or do not exist" := by
  refine ⟨by decide, by decide, by decide, by decide, by decide⟩

/-- C5 amended: (i) whenever the batch submission fails, no transaction in the
collection is mutated; (ii) with a well-formed request (1-50 well-formed ids)
over a collection with distinct ids, if some id does not resolve to a
`VERIFIED` transaction the whole call fails — with 404 when no id resolves and
with the partial-batch 400 otherwise — and mutates nothing; (iii) when the
requested ids are distinct and every one resolves to a `VERIFIED` transaction,
the call succeeds and exactly the requested transactions transition
`VERIFIED → PROCESSING` (all others are unchanged). -/
theorem c5_batch_atomicity :
    (∀ (store : TxStore) (ids : List String) (s : Nat) (m : String),
      (submitBatch store ids).1 = BatchRes.err s m →
      (submitBatch store ids).2 = store) ∧
    (∀ (store : TxStore) (ids : List String),
      (store.map Prod.fst).Nodup →
      1 ≤ ids.length → ids.length ≤ 50 → ids.all objectIdOk = true →
      (∃ id, id ∈ ids ∧ resolvesVerified store id = false) →
      ∃ s m, (submitBatch store ids).1 = BatchRes.err s m ∧
        (s = 404 ∨ s = 400) ∧ (submitBatch store ids).2 = store) ∧
    (∀ (store : TxStore) (ids : List String),
      (store.map Prod.fst).Nodup → ids.Nodup →
      1 ≤ ids.length → ids.length ≤ 50 → ids.all objectIdOk = true →
      (∀ id ∈ ids, resolvesVerified store id = true) →
      (submitBatch store ids).1 = BatchRes.ok ids.length ∧
      (∀ (id : String) (t : Transaction), findTx store id = some t →
        findTx (submitBatch store ids).2 id
          = some (if (ids.contains id && (t.status == TxStatus.VERIFIED)) = true
              then markAsProcessing t else t))) := by
  have keyPres : ∀ (ids : List String) (p : String × Transaction),
      ((fun p : String × Transaction =>
        if ids.contains p.1 && p.2.status == TxStatus.VERIFIED then
          (p.1, markAsProcessing p.2)
        else p) p).1 = p.1 := by
    intro ids p
    dsimp only
    split <;> rfl
  refine ⟨?_, ?_, ?_⟩
  · -- (i) failure mutates nothing
    intro store ids s m h
    unfold submitBatch at h ⊢
    by_cases hA : ids.length = 0
    · rw [if_pos hA]
    · rw [if_neg hA] at h ⊢
      by_cases hB : 50 < ids.length
      · rw [if_pos hB]
      · rw [if_neg hB] at h ⊢
        by_cases hC : ids.all objectIdOk = false
        · rw [if_pos hC]
        · rw [if_neg hC] at h ⊢
          by_cases hD : (verifiedAmong store ids).length = 0
          · rw [if_pos hD]
          · rw [if_neg hD] at h ⊢
            by_cases hE : (verifiedAmong store ids).length ≠ ids.length
            · rw [if_pos hE]
            · rw [if_neg hE] at h
              dsimp only at h
              cases h
  · -- (ii) an unresolved or unverified id fails the whole batch
    intro store ids hnd h1 h50 hfmt hex
    obtain ⟨a, ha, hares⟩ := hex
    have hndts : ((verifiedAmong store ids).map Prod.fst).Nodup :=
      ((List.filter_sublist store).map Prod.fst).nodup hnd
    have hsubD : ∀ p ∈ verifiedAmong store ids,
        p.1 ∈ (ids.dedup.filter (fun i => resolvesVerified store i)) := by
      intro p hp
      rw [verifiedAmong, List.mem_filter] at hp
      obtain ⟨hpstore, hcond⟩ := hp
      rw [Bool.and_eq_true] at hcond
      obtain ⟨hcont, hstat⟩ := hcond
      rw [List.mem_filter]
      refine ⟨List.mem_dedup.mpr (by simpa using hcont), ?_⟩
      have hft : findTx store p.1 = some p.2 := findTx_of_mem store p hnd hpstore
      simp [resolvesVerified, hft, hstat]
    have hle : (verifiedAmong store ids).length
        ≤ (ids.dedup.filter (fun i => resolvesVerified store i)).length := by
      rw [← List.length_map (verifiedAmong store ids) Prod.fst]
      apply length_le_of_nodup_subset hndts
      intro x hx
      obtain ⟨p, hp, rfl⟩ := List.mem_map.mp hx
      exact hsubD p hp
    have hstrict : (ids.dedup.filter (fun i => resolvesVerified store i)).length
        < ids.dedup.length := by
      have hne : ¬ ∀ i ∈ ids.dedup, resolvesVerified store i = true := by
        intro hall
        have := hall a (List.mem_dedup.mpr ha)
        rw [hares] at this
        cases this
      have hle2 := List.length_filter_le (fun i => resolvesVerified store i) ids.dedup
      rcases Nat.lt_or_ge (List.length (List.filter (fun i => resolvesVerified store i) ids.dedup)) (List.length ids.dedup) with hlt | hge
      · exact hlt
      · exfalso
        have heq : (List.filter (fun i => resolvesVerified store i) ids.dedup).length
            = ids.dedup.length := Nat.le_antisymm hle2 hge
        exact hne (List.filter_length_eq_length.mp heq)
    have hded : ids.dedup.length ≤ ids.length := (List.dedup_sublist ids).length_le
    have hlen : (verifiedAmong store ids).length < ids.length :=
      Nat.lt_of_le_of_lt hle (Nat.lt_of_lt_of_le hstrict hded)
    by_cases hD : (verifiedAmong store ids).length = 0
    · refine ⟨404, "No verified transactions found", ?_, Or.inl rfl, ?_⟩
      · unfold submitBatch
        rw [if_neg (by omega), if_neg (by omega), if_neg (by simp [hfmt]),
          if_pos hD]
      · unfold submitBatch
        rw [if_neg (by omega), if_neg (by omega), if_neg (by simp [hfmt]),
          if_pos hD]
    · refine ⟨400, "Some transactions are not in VERIFIED status or do not exist",
        ?_, Or.inr rfl, ?_⟩
      · unfold submitBatch
        rw [if_neg (by omega), if_neg (by omega), if_neg (by simp [hfmt]),
          if_neg hD, if_pos (by omega)]
      · unfold submitBatch
        rw [if_neg (by omega), if_neg (by omega), if_neg (by simp [hfmt]),
          if_neg hD, if_pos (by omega)]
  · -- (iii) all ids verified: every requested transaction transitions
    intro store ids hnd hidnd h1 h50 hfmt hall
    have hndts : ((verifiedAmong store ids).map Prod.fst).Nodup :=
      ((List.filter_sublist store).map Prod.fst).nodup hnd
    have hle : (verifiedAmong store ids).length ≤ ids.length := by
      rw [← List.length_map (verifiedAmong store ids) Prod.fst]
      apply length_le_of_nodup_subset hndts
      intro x hx
      obtain ⟨p, hp, rfl⟩ := List.mem_map.mp hx
      rw [verifiedAmong, List.mem_filter] at hp
      have hp2 := hp.2
      rw [Bool.and_eq_true] at hp2
      simpa using hp2.1
    have hge : ids.length ≤ (verifiedAmong store ids).length := by
      rw [← List.length_map (verifiedAmong store ids) Prod.fst]
      apply length_le_of_nodup_subset hidnd
      intro id hid
      have hres := hall id hid
      unfold resolvesVerified at hres
      cases hft : findTx store id with
      | none => rw [hft] at hres; cases hres
      | some t =>
        rw [hft] at hres
        dsimp only at hres
        obtain ⟨p, hpmem, hpk, hpv⟩ := mem_of_findTx store id t hft
        rw [List.mem_map]
        refine ⟨p, ?_, hpk⟩
        rw [verifiedAmong, List.mem_filter]
        refine ⟨hpmem, ?_⟩
        rw [Bool.and_eq_true]
        refine ⟨by simp [hpk, hid], by rw [hpv]; exact hres⟩
    have heq : (verifiedAmong store ids).length = ids.length :=
      Nat.le_antisymm hle hge
    have hD : ¬ ((verifiedAmong store ids).length = 0) := by omega
    constructor
    · unfold submitBatch
      rw [if_neg (by omega), if_neg (by omega), if_neg (by simp [hfmt]),
        if_neg hD, if_neg (by omega)]
      dsimp only
      rw [heq]
    · intro id t hft
      have hsnd : (submitBatch store ids).2 = List.map
          (fun p : String × Transaction =>
            if ids.contains p.1 && p.2.status == TxStatus.VERIFIED then
              (p.1, markAsProcessing p.2)
            else p) store := by
        unfold submitBatch
        rw [if_neg (by omega), if_neg (by omega), if_neg (by simp [hfmt]),
          if_neg hD, if_neg (by omega)]
      rw [hsnd, findTx_map_keyPreserving _ (keyPres ids) store id]
      unfold findTx at hft
      cases hf : List.find? (fun p : String × Transaction => p.1 == id) store with
      | none => rw [hf] at hft; cases hft
      | some p =>
        rw [hf] at hft
        simp only [Option.map_some'] at hft
        have hpk := List.find?_some hf
        simp only [beq_iff_eq] at hpk
        have hpt : p.2 = t := by injection hft
        simp only [Option.map_some']
        rw [hpk, hpt]
        cases hc : (ids.contains id && (t.status == TxStatus.VERIFIED)) with
        | true => simp [hc]
        | false => simp [hc, hpt]

/-- C5 amended at a concrete input: a singleton batch over one verified
transaction succeeds and transitions it to `PROCESSING`. -/
theorem c5_witness :
    (submitBatch [(idB, txVerified 50)] [idB]).1 = BatchRes.ok [idB].length ∧
    findTx (submitBatch [(idB, txVerified 50)] [idB]).2 idB
      = some (if ([idB].contains idB && ((txVerified 50).status == TxStatus.VERIFIED)) = true
          then markAsProcessing (txVerified 50) else txVerified 50) :=
  ⟨(c5_batch_atomicity.2.2 [(idB, txVerified 50)] [idB] (by decide) (by decide)
      (by decide) (by decide) (by decide) (by decide)).1,
    (c5_batch_atomicity.2.2 [(idB, txVerified 50)] [idB] (by decide) (by decide)
      (by decide) (by decide) (by decide) (by decide)).2 idB (txVerified 50)
      (by rfl)⟩

/-- Integers in the binade are exactly representable: rounding is the
identity on them. -/
theorem f64RoundBinade16_intCast (n : ℤ) : f64RoundBinade16 (n : ℚ) = n := by
  unfold f64RoundBinade16
  have hx : ((n : ℚ)) * 2 ^ 36 = ((n * 2 ^ 36 : ℤ) : ℚ) := by
    push_cast
    ring
  rw [hx, round_intCast]
  push_cast
  rw [mul_div_assoc]
  norm_num

/-- C8 counterexample: the verification-limit comparison runs on IEEE-754
binary64 values, not exact decimals.  The decimal amount
100000.00000000000001 (here 100000 + 1 / 10^14) strictly exceeds the limit
100000 in exact decimal arithmetic, and the exact comparison flags the excess;
but it rounds to the same binary64 double as 100000 (doubles near 100000 are
spaced 2^-36 apart and the excess is below half a spacing), so the comparison
the route actually performs on the stored doubles does not flag it — rounding
falsely permits the authorization. -/
theorem c8_counterexample :
    ((100000 : ℚ) < 100000 + 1 / 10 ^ 14) ∧
    f64RoundBinade16 (100000 + 1 / 10 ^ 14) = f64RoundBinade16 100000 ∧
    limitExceededCheck true (f64RoundBinade16 (100000 + 1 / 10 ^ 14))
        (f64RoundBinade16 100000) Role.EMPLOYEE = false ∧
    limitExceededCheck true (100000 + 1 / 10 ^ 14) (100000 : ℚ)
        Role.EMPLOYEE = true := by
  have hfl : f64RoundBinade16 (100000 : ℚ) = 100000 := by
    simpa using f64RoundBinade16_intCast 100000
  have hfa : f64RoundBinade16 (100000 + 1 / 10 ^ 14 : ℚ) = 100000 := by
    unfold f64RoundBinade16
    have hx : (100000 + 1 / 10 ^ 14 : ℚ) * 2 ^ 36
        = 6871947673600000 + 2 ^ 36 / 10 ^ 14 := by
      ring
    rw [hx]
    have hr : round (6871947673600000 + 2 ^ 36 / 10 ^ 14 : ℚ)
        = 6871947673600000 := by
      rw [round_eq, Int.floor_eq_iff]
      constructor
      · push_cast
        norm_num
      · push_cast
        norm_num
    rw [hr]
    norm_num
  have hlt : (100000 : ℚ) < 100000 + 1 / 10 ^ 14 := by norm_num
  refine ⟨hlt, by rw [hfa, hfl], ?_, ?_⟩
  · rw [hfa, hfl]
    simp [limitExceededCheck]
  · simp only [limitExceededCheck, decide_eq_true hlt]
    rfl

/-- C8 amended: the route compares the stored binary64 values; whenever both
the amount and the limit are exactly representable doubles (rounding fixes
them), the comparison performed on the stored doubles coincides with the exact
decimal comparison — only non-representable decimal inputs can be
misclassified, as the counterexample shows. -/
theorem c8_float_comparison_faithful_on_representables (a l : ℚ)
    (verified : Bool) (role : Role)
    (ha : f64RoundBinade16 a = a) (hl : f64RoundBinade16 l = l) :
    limitExceededCheck verified (f64RoundBinade16 a) (f64RoundBinade16 l) role
      = limitExceededCheck verified a l role := by
  rw [ha, hl]

/-- C8 amended at a concrete input: 100001 and 100000 are exactly
representable, and the stored-double comparison agrees with the exact one. -/
theorem c8_witness :
    limitExceededCheck true (f64RoundBinade16 100001) (f64RoundBinade16 100000)
        Role.EMPLOYEE
      = limitExceededCheck true 100001 100000 Role.EMPLOYEE :=
  c8_float_comparison_faithful_on_representables 100001 100000 true
    Role.EMPLOYEE (by simpa using f64RoundBinade16_intCast 100001)
    (by simpa using f64RoundBinade16_intCast 100000)

end Portal
